import Mathlib

/-!
Verification of the Python callout-server SDK of the service-extensions
repository against its natural-language specification.

The relevant Python functions are shallowly embedded as Lean definitions:

* `src/callouts/python/extproc/service/callout_tools.py`
  (`add_header_mutation`, `add_body_mutation`, `headers_contain`);
* `src/callouts/python/extproc/service/callout_server.py`
  (`CalloutServer.process`, the default hooks, `CalloutServer.shutdown`,
  the credential-loading part of `CalloutServer.__init__`, and
  `_GRPCCalloutService.Process`);
* `src/callouts/python/extproc/service/network_callout_server.py`
  (`NetworkCalloutServer.process` and its default hooks);
* `src/callouts/python/extauthz/service/callout_server.py`
  (`CalloutServerAuth.Check`, `_GRPCAuthService.Check`, the
  credential-loading part of `CalloutServerAuth.__init__`) and
  `src/callouts/python/extauthz/service/callout_tools.py` (`deny_request`).

Python-specific behaviour that the embedding must track faithfully:

* protobuf message constructors ignore keyword arguments whose value is
  `None` (`field=None` is the same as no field at all), so passing `None`
  for a oneof member leaves the oneof unset;
* assigning a message of the wrong type to a message-typed constructor
  keyword raises `TypeError` (`MergeFrom` requires the same class);
* tuple-unpacking a plain `@dataclass` instance raises `TypeError`
  (dataclasses do not define `__iter__`);
* truthiness: `None`, `""`, `b""`, `[]` and `0` are falsy;
* `open` on a missing file raises `FileNotFoundError`.

Exceptions are modelled with `Except PyErr`; fallible code returns
`Except`, pure protobuf construction returns plain values.
-/

/-- Python exceptions that the embedded code can raise. -/
inductive PyErr where
  | typeError
  | fileNotFoundError
  | userException
  deriving DecidableEq, Repr

/-- Bytes are modelled as lists of `UInt8`. -/
abbrev Bytes := List UInt8

/-- UTF-8 encoding of a single character (standard byte-level encoding). -/
def utf8Char (c : Char) : Bytes :=
  let n := c.toNat
  if n < 0x80 then
    [UInt8.ofNat n]
  else if n < 0x800 then
    [UInt8.ofNat (0xC0 ||| (n >>> 6)), UInt8.ofNat (0x80 ||| (n &&& 0x3F))]
  else if n < 0x10000 then
    [UInt8.ofNat (0xE0 ||| (n >>> 12)), UInt8.ofNat (0x80 ||| ((n >>> 6) &&& 0x3F)),
      UInt8.ofNat (0x80 ||| (n &&& 0x3F))]
  else
    [UInt8.ofNat (0xF0 ||| (n >>> 18)), UInt8.ofNat (0x80 ||| ((n >>> 12) &&& 0x3F)),
      UInt8.ofNat (0x80 ||| ((n >>> 6) &&& 0x3F)), UInt8.ofNat (0x80 ||| (n &&& 0x3F))]

/-- UTF-8 encoding of a string, as in Python `bytes(v, "utf-8")`. -/
def utf8 (s : String) : Bytes :=
  s.data.foldr (fun c acc => utf8Char c ++ acc) []

/-- Python truthiness of an optional string: `None` and `""` are falsy. -/
def pyTruthyStr : Option String → Bool
  | none => false
  | some s => s ≠ ""

/-- Python truthiness of an optional bytes value: `None` and `b""` are falsy. -/
def pyTruthyBytes : Option Bytes → Bool
  | none => false
  | some b => !b.isEmpty

/-- Python truthiness of an optional integer (used for proto enum values):
`None` and `0` are falsy. -/
def pyTruthyNat : Option Nat → Bool
  | none => false
  | some n => n ≠ 0

/-- Python truthiness of an optional list: `None` and `[]` are falsy. -/
def pyTruthyList {α : Type} : Option (List α) → Bool
  | none => false
  | some l => !l.isEmpty

/-- `Except.isOk` under a local name, to keep witnesses decidable. -/
def exceptIsOk {ε α : Type} : Except ε α → Bool
  | .ok _ => true
  | .error _ => false

/-- `envoy.config.core.v3.HeaderValue`: a header entry carrying its text in
`value` (string) or `raw_value` (bytes). -/
structure HeaderValue where
  key : String
  value : String
  raw_value : Bytes
  deriving DecidableEq, Repr

/-- `envoy.config.core.v3.HeaderValueOption`; `append_action` is a proto3
enum field, default `0`. -/
structure HeaderValueOption where
  header : HeaderValue
  append_action : Nat
  deriving DecidableEq, Repr

/-- `envoy.service.ext_proc.v3.HeaderMutation`. -/
structure HeaderMutation where
  set_headers : List HeaderValueOption
  remove_headers : List String
  deriving DecidableEq, Repr

/-- The empty `HeaderMutation` (all proto fields at their defaults). -/
def emptyHeaderMutation : HeaderMutation :=
  { set_headers := [], remove_headers := [] }

/-- The `mutation_type` oneof of `envoy.service.ext_proc.v3.BodyMutation`.
Assigning either member marks presence, even for default scalar values. -/
inductive BodyMutationOneof where
  | unset
  | body (b : Bytes)
  | clear_body (b : Bool)
  deriving DecidableEq, Repr

/-- `envoy.service.ext_proc.v3.CommonResponse`, restricted to the fields the
SDK touches. -/
structure CommonResponse where
  header_mutation : HeaderMutation
  body_mutation : BodyMutationOneof
  clear_route_cache : Bool
  deriving DecidableEq, Repr

/-- The empty `CommonResponse`. -/
def emptyCommonResponse : CommonResponse :=
  { header_mutation := emptyHeaderMutation
    body_mutation := .unset
    clear_route_cache := false }

/-- `envoy.service.ext_proc.v3.HeadersResponse`. -/
structure HeadersResponse where
  response : CommonResponse
  deriving DecidableEq, Repr

/-- `envoy.service.ext_proc.v3.BodyResponse`. -/
structure BodyResponse where
  response : CommonResponse
  deriving DecidableEq, Repr

/-- `envoy.service.ext_proc.v3.ImmediateResponse`, restricted to the status
code and header mutation the SDK sets. -/
structure ImmediateResponse where
  status_code : Nat
  headers : HeaderMutation
  deriving DecidableEq, Repr

/-- `envoy.config.core.v3.HeaderMap`. -/
structure HeaderMap where
  headers : List HeaderValue
  deriving DecidableEq, Repr

/-- `envoy.service.ext_proc.v3.HttpHeaders`, restricted to the fields the
SDK reads. -/
structure HttpHeaders where
  headers : HeaderMap
  end_of_stream : Bool
  deriving DecidableEq, Repr

/-- `envoy.service.ext_proc.v3.HttpBody`. -/
structure HttpBody where
  body : Bytes
  end_of_stream : Bool
  deriving DecidableEq, Repr

/-- The single header-value option appended per `(k, v)` pair by the loop in
`add_header_mutation` (callout_tools.py): the value is transmitted as
UTF-8 raw bytes, and `append_action` is assigned only when truthy. -/
def mkHeaderValueOption (append_action : Option Nat) (k v : String) :
    HeaderValueOption :=
  let hvo : HeaderValueOption :=
    { header := { key := k, value := "", raw_value := utf8 v }
      append_action := 0 }
  if pyTruthyNat append_action then
    { hvo with append_action := append_action.getD 0 }
  else hvo

/-- The body of the `for k, v in add:` loop of `add_header_mutation`:
append one header-value option to `set_headers`. -/
def add_header_step (append_action : Option Nat) (hm : HeadersResponse)
    (kv : String × String) : HeadersResponse :=
  { hm with response.header_mutation.set_headers :=
      hm.response.header_mutation.set_headers ++
        [mkHeaderValueOption append_action kv.1 kv.2] }

/-- `callout_tools.add_header_mutation` (extproc/service/callout_tools.py,
lines 102-132): builds a `HeadersResponse`, appending one `set_headers`
entry per `add` pair in order, extending `remove_headers` with `remove`
exactly as given, and setting `clear_route_cache` when requested. -/
def add_header_mutation (add : Option (List (String × String)))
    (remove : Option (List String)) (clear_route_cache : Bool)
    (append_action : Option Nat) : HeadersResponse :=
  let header_mutation : HeadersResponse := { response := emptyCommonResponse }
  let header_mutation :=
    if pyTruthyList add then
      (add.getD []).foldl (add_header_step append_action) header_mutation
    else header_mutation
  let header_mutation :=
    match remove with
    | some r =>
        { header_mutation with response.header_mutation.remove_headers :=
            header_mutation.response.header_mutation.remove_headers ++ r }
    | none => header_mutation
  if clear_route_cache then
    { header_mutation with response.clear_route_cache := true }
  else header_mutation

/-- `callout_tools.add_body_mutation` (extproc/service/callout_tools.py,
lines 135-163): `if body:` takes the body branch only for a truthy
(non-`None`, non-empty) string; otherwise `clear_body` is assigned,
marking the oneof even when the flag is `False`. -/
def add_body_mutation (body : Option String) (clear_body : Bool)
    (clear_route_cache : Bool) : BodyResponse :=
  let body_mutation : BodyResponse := { response := emptyCommonResponse }
  let body_mutation :=
    if pyTruthyStr body then
      { body_mutation with response.body_mutation := .body (utf8 (body.getD "")) }
    else
      { body_mutation with response.body_mutation := .clear_body clear_body }
  if clear_route_cache then
    { body_mutation with response.clear_route_cache := true }
  else body_mutation

/-- `callout_tools.headers_contain` (extproc/service/callout_tools.py,
lines 166-183): scans `http_headers.headers.headers` for an entry whose
`key` matches and, when a value is given, whose `value` field (never
`raw_value`) equals it. -/
def headers_contain (http_headers : HttpHeaders) (key : String)
    (value : Option String) : Bool :=
  http_headers.headers.headers.any fun header =>
    header.key == key && (value.isNone || some header.value == value)

/-- The `request` oneof of `envoy.service.ext_proc.v3.ProcessingRequest`
(the trailers payloads are irrelevant to the dispatcher and elided). -/
inductive ProcessingRequestOneof where
  | request_headers (h : HttpHeaders)
  | response_headers (h : HttpHeaders)
  | request_body (b : HttpBody)
  | response_body (b : HttpBody)
  | request_trailers
  | response_trailers
  | unset
  deriving DecidableEq, Repr

/-- The `response` oneof of `envoy.service.ext_proc.v3.ProcessingResponse`. -/
inductive ProcessingResponseOneof where
  | unset
  | request_headers (h : HeadersResponse)
  | response_headers (h : HeadersResponse)
  | request_body (b : BodyResponse)
  | response_body (b : BodyResponse)
  | immediate_response (i : ImmediateResponse)
  deriving DecidableEq, Repr

/-- `envoy.service.ext_proc.v3.ProcessingResponse`, restricted to its
`response` oneof. `ProcessingResponse()` with no arguments leaves the
oneof unset. -/
structure ProcessingResponse where
  response : ProcessingResponseOneof
  deriving DecidableEq, Repr

/-- The empty `ProcessingResponse()`. -/
def emptyProcessingResponse : ProcessingResponse :=
  { response := .unset }

/-- A Python value returned by one of the four `CalloutServer` hooks: the
declared union members, a full `ProcessingResponse`, or any other object. -/
inductive HookResult where
  | none
  | headers (h : HeadersResponse)
  | body (b : BodyResponse)
  | immediate (i : ImmediateResponse)
  | processing (p : ProcessingResponse)
  | other
  deriving DecidableEq, Repr

/-- The four user hooks of `CalloutServer` (the gRPC context argument is
irrelevant to dispatch and elided). -/
structure Hooks where
  on_request_headers : HttpHeaders → HookResult
  on_response_headers : HttpHeaders → HookResult
  on_request_body : HttpBody → HookResult
  on_response_body : HttpBody → HookResult

/-- The default hooks of `CalloutServer` (callout_server.py, lines 389-451):
every unoverridden hook returns `None`. -/
def default_hooks : Hooks :=
  { on_request_headers := fun _ => .none
    on_response_headers := fun _ => .none
    on_request_body := fun _ => .none
    on_response_body := fun _ => .none }

/-- `ProcessingResponse(request_headers=x)` and friends: the Python protobuf
constructor ignores a keyword argument whose value is `None` (the message
stays empty), sets the oneof for a value of the declared message type, and
raises `TypeError` for a message of any other type. -/
def mkProcessingResponseHeaders
    (mk : HeadersResponse → ProcessingResponseOneof) :
    HookResult → Except PyErr ProcessingResponse
  | .none => .ok emptyProcessingResponse
  | .headers h => .ok { response := mk h }
  | _ => .error .typeError

/-- `ProcessingResponse(request_body=x)` / `ProcessingResponse(response_body=x)`
keyword semantics, as in `mkProcessingResponseHeaders`. -/
def mkProcessingResponseBody (mk : BodyResponse → ProcessingResponseOneof) :
    HookResult → Except PyErr ProcessingResponse
  | .none => .ok emptyProcessingResponse
  | .body b => .ok { response := mk b }
  | _ => .error .typeError

/-- `CalloutServer.process` (callout_server.py, lines 349-387): dispatch on
the set variant of the incoming `ProcessingRequest`.

* `request_headers`: `match` with arms for a full `ProcessingResponse`
  (returned unchanged), an `ImmediateResponse`, a `HeadersResponse` or
  `None` (passed as the `request_headers` keyword), and a catch-all that
  logs `MALFORMED CALLOUT` and falls through to `return
  ProcessingResponse()`.
* `response_headers`: the hook result is passed directly as the
  `response_headers` keyword of the constructor.
* `request_body`: `match` with arms for an `ImmediateResponse`, a
  `BodyResponse` or `None`, and a logging catch-all that falls through.
* `response_body`: the hook result is passed directly as the
  `response_body` keyword of the constructor.
* anything else falls through to `return ProcessingResponse()`. -/
def process (hooks : Hooks) (callout : ProcessingRequestOneof) :
    Except PyErr ProcessingResponse :=
  match callout with
  | .request_headers h =>
    match hooks.on_request_headers h with
    | .processing p => .ok p
    | .immediate i => .ok { response := .immediate_response i }
    | .headers hr =>
        mkProcessingResponseHeaders .request_headers (.headers hr)
    | .none => mkProcessingResponseHeaders .request_headers .none
    | .body _ => .ok emptyProcessingResponse
    | .other => .ok emptyProcessingResponse
  | .response_headers h =>
      mkProcessingResponseHeaders .response_headers (hooks.on_response_headers h)
  | .request_body b =>
    match hooks.on_request_body b with
    | .immediate i => .ok { response := .immediate_response i }
    | .body br => mkProcessingResponseBody .request_body (.body br)
    | .none => mkProcessingResponseBody .request_body .none
    | .headers _ => .ok emptyProcessingResponse
    | .processing _ => .ok emptyProcessingResponse
    | .other => .ok emptyProcessingResponse
  | .response_body b =>
      mkProcessingResponseBody .response_body (hooks.on_response_body b)
  | _ => .ok emptyProcessingResponse

/-- `_GRPCCalloutService.Process` (callout_server.py, lines 503-511): a
generator yielding `self._processor.process(callout, context)` for each
inbound message in order; an exception raised while producing a response
aborts the stream, so no further responses are yielded. -/
def process_stream (dispatch : ProcessingRequestOneof → Except PyErr ProcessingResponse) :
    List ProcessingRequestOneof → List ProcessingResponse
  | [] => []
  | r :: rest =>
    match dispatch r with
    | .ok resp => resp :: process_stream dispatch rest
    | .error _ => []

/-- `Data` message of `envoy.service.network_ext_proc.v3`. -/
structure NetworkData where
  data : Bytes
  end_of_stream : Bool
  deriving DecidableEq, Repr

/-- The oneof carrying the direction of an L4 frame, used by both the network
`ProcessingRequest` and `ProcessingResponse`. -/
inductive NetworkDataOneof where
  | unset
  | read_data (d : NetworkData)
  | write_data (d : NetworkData)
  deriving DecidableEq, Repr

/-- `ProcessingResponse.DataProcessedStatus` of the network ext-proc proto
(`UNSPECIFIED` is the numeric default). -/
inductive DataProcessedStatus where
  | UNSPECIFIED
  | UNMODIFIED
  | MODIFIED
  deriving DecidableEq, Repr

/-- `ProcessingResponse.ConnectionStatus` of the network ext-proc proto
(`CONTINUE` is the numeric default). -/
inductive ConnectionStatus where
  | CONTINUE
  | CLOSE
  deriving DecidableEq, Repr

/-- `envoy.service.network_ext_proc.v3.ProcessingResponse`. -/
structure NetworkProcessingResponse where
  response : NetworkDataOneof
  data_processing_status : DataProcessedStatus
  connection_status : ConnectionStatus
  deriving DecidableEq, Repr

/-- The empty network `ProcessingResponse()` (all fields at proto defaults). -/
def emptyNetworkProcessingResponse : NetworkProcessingResponse :=
  { response := .unset
    data_processing_status := .UNSPECIFIED
    connection_status := .CONTINUE }

/-- The `ProcessingResult` dataclass of network_callout_server.py (lines
40-49): a plain `@dataclass`, which Python cannot tuple-unpack. -/
structure ProcessingResult where
  processed_data : Bytes
  modified : Bool
  deriving DecidableEq, Repr

/-- A Python value returned by `on_read_data` / `on_write_data`: either a
`(bytes, bool)` tuple (as the examples return) or a `ProcessingResult`
dataclass instance (as the default hooks return). -/
inductive PyNetHookValue where
  | tuple (data : Bytes) (modified : Bool)
  | result (r : ProcessingResult)
  deriving DecidableEq, Repr

/-- The tuple unpacking `processed_data, modified = ...` performed by
`NetworkCalloutServer.process`: unpacking a plain dataclass instance
raises `TypeError` (dataclasses do not define `__iter__`). -/
def py_unpack_pair : PyNetHookValue → Except PyErr (Bytes × Bool)
  | .tuple d m => .ok (d, m)
  | .result _ => .error .typeError

/-- `NetworkCalloutServer.on_read_data` default implementation
(network_callout_server.py, lines 286-305): returns
`ProcessingResult(processed_data=data, modified=False)`. -/
def on_read_data_default (data : Bytes) (_end_of_stream : Bool) : PyNetHookValue :=
  .result { processed_data := data, modified := false }

/-- `NetworkCalloutServer.on_write_data` default implementation
(network_callout_server.py, lines 307-326): returns
`ProcessingResult(processed_data=data, modified=False)`. -/
def on_write_data_default (data : Bytes) (_end_of_stream : Bool) : PyNetHookValue :=
  .result { processed_data := data, modified := false }

/-- `NetworkCalloutServer.should_close_connection` default implementation
(network_callout_server.py, lines 328-334): always `False`. -/
def should_close_connection_default (_data : Bytes) (_modified : Bool) : Bool :=
  false

/-- `NetworkCalloutServer.process` (network_callout_server.py, lines
220-284): for a `read_data` or `write_data` frame, tuple-unpack the hook
result, mirror the direction with the processed bytes and the incoming
`end_of_stream`, set `data_processing_status` from the modified flag, and
set `connection_status` from `should_close_connection` on the original
bytes; a request with no data yields the empty response. -/
def network_process (on_read_data on_write_data : Bytes → Bool → PyNetHookValue)
    (should_close_connection : Bytes → Bool → Bool)
    (callout : NetworkDataOneof) : Except PyErr NetworkProcessingResponse :=
  match callout with
  | .read_data d =>
    match py_unpack_pair (on_read_data d.data d.end_of_stream) with
    | .error e => .error e
    | .ok (processed_data, modified) =>
        .ok { response := .read_data { data := processed_data,
                                       end_of_stream := d.end_of_stream }
              data_processing_status := if modified then .MODIFIED else .UNMODIFIED
              connection_status :=
                if should_close_connection d.data modified then .CLOSE else .CONTINUE }
  | .write_data d =>
    match py_unpack_pair (on_write_data d.data d.end_of_stream) with
    | .error e => .error e
    | .ok (processed_data, modified) =>
        .ok { response := .write_data { data := processed_data,
                                        end_of_stream := d.end_of_stream }
              data_processing_status := if modified then .MODIFIED else .UNMODIFIED
              connection_status :=
                if should_close_connection d.data modified then .CLOSE else .CONTINUE }
  | .unset => .ok emptyNetworkProcessingResponse

/-- A file system, mapping a path to the bytes of a readable file; `none`
means the file cannot be read. -/
abbrev FileSys := String → Option Bytes

/-- `_read_cert_file` inside `CalloutServer.__init__`
(extproc/service/callout_server.py, lines 173-177): `if path:` guards a
bare `open(path, "rb")`, so an unreadable file raises
`FileNotFoundError` out of the constructor. -/
def read_cert_file (fs : FileSys) (path : Option String) :
    Except PyErr (Option Bytes) :=
  if pyTruthyStr path then
    match fs (path.getD "") with
    | some content => .ok (some content)
    | none => .error .fileNotFoundError
  else .ok none

/-- `_read_cert_file` inside `CalloutServerAuth.__init__`
(extauthz/service/callout_server.py, lines 130-146): the `open` is wrapped
in `try/except FileNotFoundError`, logging a warning and returning `None`
when the file cannot be read. -/
def read_cert_file_auth (fs : FileSys) (path : Option String) : Option Bytes :=
  if pyTruthyStr path then fs (path.getD "") else none

/-- The credential-loading slice of `CalloutServer.__init__`
(extproc/service/callout_server.py, lines 179-183): the in-memory value
wins when it is not `None`; otherwise the path is read with the
non-catching `_read_cert_file`, so a missing file propagates
`FileNotFoundError` and construction fails. The private key is read
first, then the certificate chain. -/
def callout_server_init_creds (fs : FileSys)
    (private_key : Option Bytes) (private_key_path : Option String)
    (cert_chain : Option Bytes) (cert_chain_path : Option String) :
    Except PyErr (Option Bytes × Option Bytes) := do
  let pk ←
    match private_key with
    | some k => pure (some k)
    | none => read_cert_file fs private_key_path
  let cc ←
    match cert_chain with
    | some c => pure (some c)
    | none => read_cert_file fs cert_chain_path
  pure (pk, cc)

/-- The credential-loading slice of `CalloutServerAuth.__init__`
(extauthz/service/callout_server.py, lines 148-156): values are combined
with Python `or` (truthiness), the reader swallows `FileNotFoundError`,
and if a path was provided but its data could not be loaded both
credentials are cleared to `None` with a warning, disabling secure
connections; construction continues. -/
def callout_server_auth_init_creds (fs : FileSys)
    (private_key : Option Bytes) (private_key_path : Option String)
    (cert_chain : Option Bytes) (cert_chain_path : Option String) :
    Option Bytes × Option Bytes :=
  let pk := if pyTruthyBytes private_key then private_key
            else read_cert_file_auth fs private_key_path
  let cc := if pyTruthyBytes cert_chain then cert_chain
            else read_cert_file_auth fs cert_chain_path
  if (pyTruthyStr cert_chain_path && !pyTruthyBytes cc) ||
     (pyTruthyStr private_key_path && !pyTruthyBytes pk) then
    (none, none)
  else (pk, cc)

/-- `envoy.service.auth.v3.CheckRequest`, treated as opaque by the
dispatcher. -/
structure CheckRequest where
  deriving DecidableEq, Repr

/-- `envoy.type.v3.HttpStatus`. -/
structure HttpStatus where
  code : Nat
  deriving DecidableEq, Repr

/-- `envoy.service.auth.v3.DeniedHttpResponse`. -/
structure DeniedHttpResponse where
  status : HttpStatus
  body : String
  headers : List HeaderValueOption
  deriving DecidableEq, Repr

/-- `envoy.service.auth.v3.OkHttpResponse`. -/
structure OkHttpResponse where
  headers : List HeaderValueOption
  deriving DecidableEq, Repr

/-- The `http_response` oneof of `envoy.service.auth.v3.CheckResponse`. -/
inductive CheckResponseOneof where
  | unset
  | ok_response (r : OkHttpResponse)
  | denied_response (d : DeniedHttpResponse)
  deriving DecidableEq, Repr

/-- `envoy.service.auth.v3.CheckResponse`: a `google.rpc.Status` code plus
the `http_response` oneof. -/
structure CheckResponse where
  status_code : Nat
  http_response : CheckResponseOneof
  deriving DecidableEq, Repr

/-- `callout_tools.deny_request` (extauthz/service/callout_tools.py, lines
54-86): builds a denied `CheckResponse`; the status code defaults to 403
Forbidden, body and headers are added when truthy. -/
def deny_request (status_code : Nat := 403) (body : Option String := none)
    (headers : Option (List (String × String)) := none) : CheckResponse :=
  let denied : DeniedHttpResponse :=
    { status := { code := status_code }
      body := if pyTruthyStr body then body.getD "" else ""
      headers :=
        match headers with
        | some hs =>
            if !hs.isEmpty then
              hs.map (fun kv =>
                { header := { key := kv.1, value := kv.2, raw_value := [] }
                  append_action := 0 })
            else []
        | none => [] }
  { status_code := 0, http_response := .denied_response denied }

/-- `CalloutServerAuth.Check` (extauthz/service/callout_server.py, lines
224-236): returns `self.on_check(request, context)` with no exception
handling, so an exception raised by the hook propagates. -/
def callout_server_auth_check
    (on_check : CheckRequest → Except PyErr CheckResponse)
    (request : CheckRequest) : Except PyErr CheckResponse :=
  on_check request

/-- `_GRPCAuthService.Check` (extauthz/service/callout_server.py, lines
305-318): returns `self._processor.Check(request, context)` with no
exception handling. -/
def grpc_auth_service_check
    (on_check : CheckRequest → Except PyErr CheckResponse)
    (request : CheckRequest) : Except PyErr CheckResponse :=
  callout_server_auth_check on_check request

/-- The state of a main-process `CalloutServer` instance touched by
`shutdown` (extproc/service/callout_server.py): the worker flag, the
`_shutdown_initiated` guard, the multiprocessing shutdown event, the
optional health-check server, and the list of worker process ids. -/
structure ServerState where
  is_worker : Bool
  shutdown_initiated : Bool
  grpc_shutdown_event_set : Bool
  health_check_server : Option Nat
  grpc_worker_processes : List Nat
  deriving DecidableEq, Repr

/-- `CalloutServer.shutdown` (extproc/service/callout_server.py, lines
314-347): returns immediately on a worker instance or when
`_shutdown_initiated` is already set; otherwise sets the guard, sets the
multiprocessing shutdown event, stops and clears the health-check server,
and joins (or terminates) and clears every worker process. -/
def shutdown (s : ServerState) : ServerState :=
  if s.is_worker then s
  else if s.shutdown_initiated then s
  else
    { s with
        shutdown_initiated := true
        grpc_shutdown_event_set := true
        health_check_server := none
        grpc_worker_processes := [] }

/-- A sample stream of requests covering every variant, used as concrete
input for the streaming theorems. -/
def sample_requests : List ProcessingRequestOneof :=
  [ .request_headers { headers := { headers := [] }, end_of_stream := false },
    .response_headers { headers := { headers := [] }, end_of_stream := false },
    .request_body { body := utf8 "initial-body", end_of_stream := false },
    .response_body { body := [], end_of_stream := true },
    .request_trailers ]

/-- C1: for every finite stream of `ProcessingRequest` messages on which
dispatching raises no exception, `_GRPCCalloutService.Process` yields
exactly one `ProcessingResponse` per request, and the sequence of emitted
responses is exactly the sequence of per-request dispatch results in
order: no reordering, batching, or coalescing. -/
theorem extproc_stream_one_response_per_request (hooks : Hooks)
    (reqs : List ProcessingRequestOneof)
    (hok : ∀ r ∈ reqs, exceptIsOk (process hooks r) = true) :
    (process_stream (process hooks) reqs).length = reqs.length ∧
    (process_stream (process hooks) reqs).map Except.ok =
      reqs.map (process hooks) := by
  induction reqs with
  | nil => exact ⟨rfl, rfl⟩
  | cons r rest ih =>
    have hr := hok r (List.mem_cons_self r rest)
    have hrest := ih fun x hx => hok x (List.mem_cons_of_mem r hx)
    obtain ⟨resp, hresp⟩ : ∃ resp, process hooks r = Except.ok resp := by
      cases hp : process hooks r with
      | ok resp => exact ⟨resp, rfl⟩
      | error e => rw [hp] at hr; simp [exceptIsOk] at hr
    refine ⟨?_, ?_⟩
    · simp [process_stream, hresp, hrest.1]
    · simp [process_stream, hresp, hrest.2]

/-- Closed witness for `extproc_stream_one_response_per_request`: the default
server on a five-message stream covering every variant. -/
theorem extproc_stream_one_response_per_request_witness :
    (∀ r ∈ sample_requests, exceptIsOk (process default_hooks r) = true) ∧
    ((process_stream (process default_hooks) sample_requests).length =
        sample_requests.length ∧
      (process_stream (process default_hooks) sample_requests).map Except.ok =
        sample_requests.map (process default_hooks)) :=
  ⟨by decide,
    extproc_stream_one_response_per_request default_hooks sample_requests (by decide)⟩

/-- C2: evaluation of `CalloutServer.process` with the default (unoverridden)
hooks on each of the four variants. Because the hooks return `None` and
the Python protobuf constructor drops `None` keyword arguments, every
result is the fully empty `ProcessingResponse` whose `response` oneof is
unset, not a response whose variant matches the input. -/
theorem extproc_default_response_has_no_variant :
    process default_hooks
        (.request_headers { headers := { headers := [] }, end_of_stream := false }) =
      .ok emptyProcessingResponse ∧
    process default_hooks
        (.response_headers { headers := { headers := [] }, end_of_stream := false }) =
      .ok emptyProcessingResponse ∧
    process default_hooks (.request_body { body := [], end_of_stream := false }) =
      .ok emptyProcessingResponse ∧
    process default_hooks (.response_body { body := [], end_of_stream := false }) =
      .ok emptyProcessingResponse ∧
    emptyProcessingResponse.response = .unset :=
  ⟨rfl, rfl, rfl, rfl, rfl⟩

/-- C3: evaluation of `NetworkCalloutServer.process` with the default hooks
on a read frame and a write frame. The default hooks return a
`ProcessingResult` dataclass while `process` tuple-unpacks the result, so
both calls raise `TypeError` instead of returning the documented
pass-through response. -/
theorem network_default_hooks_raise_type_error :
    network_process on_read_data_default on_write_data_default
        should_close_connection_default
        (.read_data { data := utf8 "hello", end_of_stream := false }) =
      .error .typeError ∧
    network_process on_read_data_default on_write_data_default
        should_close_connection_default
        (.write_data { data := utf8 "hi", end_of_stream := true }) =
      .error .typeError :=
  ⟨rfl, rfl⟩

/-- C9: `CalloutServer.shutdown` is idempotent: a second call finds the
`_shutdown_initiated` guard set (or a worker instance) and performs no
further state change. -/
theorem shutdown_idempotent (s : ServerState) :
    shutdown (shutdown s) = shutdown s := by
  unfold shutdown
  by_cases hw : s.is_worker
  · simp [hw]
  · by_cases hi : s.shutdown_initiated
    · simp [hw, hi]
    · simp [hw, hi]

/-- A file system on which no file can be read. -/
def fs_empty : FileSys := fun _ => none

/-- C4 counterexample: constructing an extproc `CalloutServer` with
certificate and key paths pointing at unreadable files raises
`FileNotFoundError` out of the constructor instead of tolerating it. -/
theorem extproc_init_unreadable_cert_raises :
    callout_server_init_creds fs_empty none (some "missing-key.pem")
        none (some "missing-chain.pem") =
      .error .fileNotFoundError :=
  rfl

/-- C4 amended: with a provided but unreadable private-key path (and no
in-memory credentials), the ext-authz constructor tolerates the failure
and clears both credentials, disabling secure serving, while the extproc
constructor propagates `FileNotFoundError` and construction fails. -/
theorem cert_unreadable_construction_split (fs : FileSys) (pkp ccp : String)
    (hpk : pkp ≠ "") (hfs : fs pkp = none) :
    callout_server_init_creds fs none (some pkp) none (some ccp) =
      .error .fileNotFoundError ∧
    callout_server_auth_init_creds fs none (some pkp) none (some ccp) =
      (none, none) := by
  constructor
  · simp [callout_server_init_creds, read_cert_file, pyTruthyStr, hpk, hfs,
      Bind.bind, Except.bind]
  · simp [callout_server_auth_init_creds, read_cert_file_auth, pyTruthyStr,
      pyTruthyBytes, hpk, hfs]

/-- Closed witness for `cert_unreadable_construction_split`. -/
theorem cert_unreadable_construction_split_witness :
    (("unreadable-key.pem" : String) ≠ "" ∧
      fs_empty "unreadable-key.pem" = none) ∧
    (callout_server_init_creds fs_empty none (some "unreadable-key.pem")
        none (some "unreadable-chain.pem") = .error .fileNotFoundError ∧
      callout_server_auth_init_creds fs_empty none (some "unreadable-key.pem")
        none (some "unreadable-chain.pem") = (none, none)) :=
  ⟨⟨by decide, rfl⟩,
    cert_unreadable_construction_split fs_empty "unreadable-key.pem"
      "unreadable-chain.pem" (by decide) rfl⟩

/-- An `on_check` hook that raises. -/
def raising_on_check : CheckRequest → Except PyErr CheckResponse :=
  fun _ => .error .userException

/-- C5 counterexample: when `on_check` raises, `_GRPCAuthService.Check` does
not return any `CheckResponse` at all, in particular not a denied one
with status 500: the exception propagates out of the Check RPC. -/
theorem extauthz_exception_not_converted :
    grpc_auth_service_check raising_on_check {} = .error .userException ∧
    exceptIsOk (grpc_auth_service_check raising_on_check {}) = false ∧
    grpc_auth_service_check raising_on_check {} ≠
      .ok (deny_request 500 none none) :=
  ⟨rfl, rfl, fun h => Except.noConfusion h⟩

/-- C5 amended: the ext-authz dispatcher is a pure delegation with no
exception handler: `_GRPCAuthService.Check` returns exactly what
`on_check` produces, so an exception raised by the hook propagates out of
the Check RPC unchanged (and a returned response is forwarded unchanged). -/
theorem extauthz_check_delegates
    (on_check : CheckRequest → Except PyErr CheckResponse)
    (request : CheckRequest) :
    grpc_auth_service_check on_check request = on_check request ∧
    (∀ e, on_check request = .error e →
      grpc_auth_service_check on_check request = .error e) ∧
    (∀ r, on_check request = .ok r →
      grpc_auth_service_check on_check request = .ok r) :=
  ⟨rfl, fun _ he => he, fun _ hr => hr⟩

/-- Closed witness for `extauthz_check_delegates`. -/
theorem extauthz_check_delegates_witness :
    grpc_auth_service_check raising_on_check {} = raising_on_check {} ∧
    grpc_auth_service_check raising_on_check {} = .error .userException :=
  ⟨(extauthz_check_delegates raising_on_check {}).1,
    (extauthz_check_delegates raising_on_check {}).2.1 .userException rfl⟩

/-- C6 counterexample: calling `add_body_mutation` with the empty string as
`body` and `clear_body=True` produces a `BodyMutation` that sets
`clear_body` and carries no body bytes: `if body:` treats the specified
empty string as absent, so `body` does not win. -/
theorem body_empty_string_loses_to_clear_body :
    (add_body_mutation (some "") true false).response.body_mutation =
      .clear_body true ∧
    (add_body_mutation (some "") true false).response.body_mutation ≠
      .body (utf8 "") := by
  refine ⟨rfl, ?_⟩
  decide

/-- C6 amended: whenever a non-empty `body` is specified, it wins over
`clear_body`: the resulting `BodyMutation` carries the UTF-8 body bytes
and does not set `clear_body` (a warning is logged instead). -/
theorem body_wins_when_nonempty (s : String) (clear_body clear_route_cache : Bool)
    (hs : s ≠ "") :
    (add_body_mutation (some s) clear_body clear_route_cache).response.body_mutation =
      .body (utf8 s) := by
  unfold add_body_mutation
  simp [pyTruthyStr, hs]
  split <;> rfl

/-- Closed witness for `body_wins_when_nonempty`. -/
theorem body_wins_when_nonempty_witness :
    ("initial-body" : String) ≠ "" ∧
    (add_body_mutation (some "initial-body") true false).response.body_mutation =
      .body (utf8 "initial-body") :=
  ⟨by decide, body_wins_when_nonempty "initial-body" true false (by decide)⟩

/-- A concrete full `ProcessingResponse`, as a hook might build for the
dynamic-metadata escape hatch. -/
def sample_full_response : ProcessingResponse :=
  { response := .immediate_response { status_code := 301, headers := emptyHeaderMutation } }

/-- Hooks in which `on_request_body` returns a full `ProcessingResponse`. -/
def body_full_response_hooks : Hooks :=
  { default_hooks with on_request_body := fun _ => .processing sample_full_response }

/-- Hooks in which every hook returns a full `ProcessingResponse`. -/
def all_full_response_hooks : Hooks :=
  { on_request_headers := fun _ => .processing sample_full_response
    on_response_headers := fun _ => .processing sample_full_response
    on_request_body := fun _ => .processing sample_full_response
    on_response_body := fun _ => .processing sample_full_response }

/-- C7 counterexample: a full `ProcessingResponse` returned from
`on_request_body` is not forwarded: the `match` treats it as malformed
and `process` falls through to the empty `ProcessingResponse()`. -/
theorem full_response_from_body_hook_dropped :
    process body_full_response_hooks
        (.request_body { body := [], end_of_stream := false }) =
      .ok emptyProcessingResponse ∧
    emptyProcessingResponse ≠ sample_full_response := by
  refine ⟨rfl, ?_⟩
  decide

/-- C7 amended: only `on_request_headers` has the escape hatch: a full
`ProcessingResponse` it returns is forwarded unchanged. From
`on_request_body` the value is logged as malformed and replaced by the
empty response; from `on_response_headers` or `on_response_body` it is
passed to the protobuf constructor as the wrong message type and raises
`TypeError`. -/
theorem full_response_only_from_request_headers (hooks : Hooks)
    (h : HttpHeaders) (b : HttpBody) (p : ProcessingResponse) :
    (hooks.on_request_headers h = .processing p →
      process hooks (.request_headers h) = .ok p) ∧
    (hooks.on_request_body b = .processing p →
      process hooks (.request_body b) = .ok emptyProcessingResponse) ∧
    (hooks.on_response_headers h = .processing p →
      process hooks (.response_headers h) = .error .typeError) ∧
    (hooks.on_response_body b = .processing p →
      process hooks (.response_body b) = .error .typeError) := by
  refine ⟨?_, ?_, ?_, ?_⟩ <;> intro hh <;>
    simp [process, hh, mkProcessingResponseHeaders, mkProcessingResponseBody]

/-- Closed witness for `full_response_only_from_request_headers`. -/
theorem full_response_only_from_request_headers_witness :
    process all_full_response_hooks
        (.request_headers { headers := { headers := [] }, end_of_stream := false }) =
      .ok sample_full_response ∧
    process all_full_response_hooks
        (.request_body { body := [], end_of_stream := false }) =
      .ok emptyProcessingResponse ∧
    process all_full_response_hooks
        (.response_headers { headers := { headers := [] }, end_of_stream := false }) =
      .error .typeError ∧
    process all_full_response_hooks
        (.response_body { body := [], end_of_stream := false }) =
      .error .typeError :=
  have T := full_response_only_from_request_headers all_full_response_hooks
    { headers := { headers := [] }, end_of_stream := false }
    { body := [], end_of_stream := false } sample_full_response
  ⟨T.1 rfl, T.2.1 rfl, T.2.2.1 rfl, T.2.2.2 rfl⟩

/-- C8 counterexample: `add_header_mutation` does not de-duplicate the
`remove` list: a duplicated key appears twice in `remove_headers`. -/
theorem remove_headers_keep_duplicates :
    (add_header_mutation none (some ["x-a", "x-a"]) false
        none).response.header_mutation.remove_headers = ["x-a", "x-a"] ∧
    ¬ ((add_header_mutation none (some ["x-a", "x-a"]) false
        none).response.header_mutation.remove_headers).Nodup := by
  refine ⟨rfl, ?_⟩
  decide

/-- Folding the `add` loop of `add_header_mutation` appends exactly one
mapped entry per pair, in order, and touches nothing else. -/
theorem foldl_add_header_step (append_action : Option Nat)
    (l : List (String × String)) (hm : HeadersResponse) :
    l.foldl (add_header_step append_action) hm =
      { hm with response.header_mutation.set_headers :=
          hm.response.header_mutation.set_headers ++
            l.map (fun kv => mkHeaderValueOption append_action kv.1 kv.2) } := by
  induction l generalizing hm with
  | nil => simp
  | cons kv rest ih =>
    simp [List.foldl_cons, ih, add_header_step, List.append_assoc]

/-- C8 amended: `add_header_mutation` copies the `remove` list onto
`remove_headers` exactly as given — order and multiplicity preserved, no
de-duplication — while `set_headers` carries one entry per `add` pair in
insertion order, with the value transmitted as UTF-8 raw bytes. -/
theorem header_mutation_preserves_add_and_remove
    (add : List (String × String)) (remove : List String)
    (clear_route_cache : Bool) (append_action : Option Nat) :
    (add_header_mutation (some add) (some remove) clear_route_cache
        append_action).response.header_mutation.remove_headers = remove ∧
    (add_header_mutation (some add) (some remove) clear_route_cache
        append_action).response.header_mutation.set_headers =
      add.map (fun kv => mkHeaderValueOption append_action kv.1 kv.2) := by
  unfold add_header_mutation
  cases add with
  | nil =>
    cases clear_route_cache <;>
      simp [pyTruthyList, emptyCommonResponse, emptyHeaderMutation]
  | cons kv rest =>
    cases clear_route_cache <;>
      simp [pyTruthyList, foldl_add_header_step, add_header_step,
        emptyCommonResponse, emptyHeaderMutation]

/-- An `HttpHeaders` message whose single header carries the empty text in
both `value` and `raw_value` (as `add_header_mutation` would produce for
an empty value string). -/
def empty_value_headers : HttpHeaders :=
  { headers := { headers := [{ key := "k", value := "", raw_value := utf8 "" }] }
    end_of_stream := false }

/-- C10 counterexample: for the empty search value the claim fails: the
matching header carries its text solely in `raw_value` (its `value` is
the empty string, equal to the UTF-8 decoding of `raw_value`), yet
`headers_contain` returns `True`, because the empty `value` field
compares equal to the empty search value. -/
theorem headers_contain_empty_value_matches :
    headers_contain empty_value_headers "k" (some "") = true ∧
    empty_value_headers.headers.headers.map (fun h => h.value) = [""] ∧
    empty_value_headers.headers.headers.map (fun h => h.raw_value) = [utf8 ""] := by
  refine ⟨rfl, rfl, rfl⟩

/-- C10 amended: `headers_contain` compares only the `value` field, never
`raw_value`: for every non-empty search value, if every header matching
the key stores the empty string in `value` (as every header produced by
`add_header_mutation` does, whose `value` projection is always `""`),
the keyed lookup returns `False` even when `raw_value` holds the UTF-8
encoding of the search value, while the key-only lookup still returns
`True` whenever some header matches the key. -/
theorem headers_contain_ignores_raw_value (http_headers : HttpHeaders)
    (key v : String) (hv : v ≠ "")
    (hval : ∀ h ∈ http_headers.headers.headers, h.key = key → h.value = "")
    (hmem : ∃ h ∈ http_headers.headers.headers, h.key = key) :
    headers_contain http_headers key (some v) = false ∧
    headers_contain http_headers key none = true ∧
    (add_header_mutation (some [(key, v)]) none false
        none).response.header_mutation.set_headers.map
      (fun o => o.header.value) = [""] := by
  refine ⟨?_, ?_, ?_⟩
  · simp only [headers_contain, List.any_eq_false]
    intro h hh
    simp only [Bool.and_eq_true, beq_iff_eq, Option.isNone_some, Bool.false_or,
      Option.some.injEq, not_and]
    intro hkey hval2
    exact hv ((hval h hh hkey).symm.trans hval2).symm
  · obtain ⟨h, hh, hkey⟩ := hmem
    simp only [headers_contain, List.any_eq_true]
    exact ⟨h, hh, by simp [hkey]⟩
  · simp [add_header_mutation, pyTruthyList, add_header_step,
      mkHeaderValueOption, pyTruthyNat, emptyCommonResponse, emptyHeaderMutation]

/-- Concrete headers for the `headers_contain_ignores_raw_value` witness:
the matching header carries `abc` only as UTF-8 raw bytes. -/
def raw_value_only_headers : HttpHeaders :=
  { headers := { headers := [{ key := "k", value := "", raw_value := utf8 "abc" }] }
    end_of_stream := false }

/-- Closed witness for `headers_contain_ignores_raw_value`. -/
theorem headers_contain_ignores_raw_value_witness :
    headers_contain raw_value_only_headers "k" (some "abc") = false ∧
    headers_contain raw_value_only_headers "k" none = true ∧
    (add_header_mutation (some [("k", "abc")]) none false
        none).response.header_mutation.set_headers.map
      (fun o => o.header.value) = [""] :=
  headers_contain_ignores_raw_value raw_value_only_headers "k" "abc"
    (by decide) (by decide) (by decide)
